import Mathlib

set_option maxRecDepth 100000

/-!
Verification of the content-addressed ingestion scripts:
`Scripts/test-aws-upload.py`, `Scripts/create-dynamodb-table.py` and
`Scripts/aws-config-parser.py`.  Bytes are modelled as `List Nat` (each
element `< 256`), machine words as `Nat` reduced `% 2^32`, and the cloud
collaborators (object store, metadata table, waiter) as explicit state
passed through the functions.
-/

namespace SignalScripts

/-! ## Bytes and 32-bit word arithmetic -/

/-- Addition modulo `2^32`, the word arithmetic `hashlib`'s SHA-256 uses. -/
def add32 (a b : Nat) : Nat := (a + b) % 4294967296

/-- Right rotation of a 32-bit word by `n` bits. -/
def rotr (n x : Nat) : Nat := ((x >>> n) ||| (x <<< (32 - n))) % 4294967296

/-- Bitwise complement on 32 bits. -/
def not32 (x : Nat) : Nat := x ^^^ 4294967295

/-- Function `Ch(x,y,z)` of FIPS 180-4. -/
def ch (x y z : Nat) : Nat := (x &&& y) ^^^ (not32 x &&& z)

/-- Function `Maj(x,y,z)` of FIPS 180-4. -/
def maj (x y z : Nat) : Nat := (x &&& y) ^^^ (x &&& z) ^^^ (y &&& z)

/-- Function `Σ0` of FIPS 180-4. -/
def bigSigma0 (x : Nat) : Nat := rotr 2 x ^^^ rotr 13 x ^^^ rotr 22 x

/-- Function `Σ1` of FIPS 180-4. -/
def bigSigma1 (x : Nat) : Nat := rotr 6 x ^^^ rotr 11 x ^^^ rotr 25 x

/-- Function `σ0` of FIPS 180-4. -/
def smallSigma0 (x : Nat) : Nat := rotr 7 x ^^^ rotr 18 x ^^^ (x >>> 3)

/-- Function `σ1` of FIPS 180-4. -/
def smallSigma1 (x : Nat) : Nat := rotr 17 x ^^^ rotr 19 x ^^^ (x >>> 10)

/-- A natural number as `k` big-endian bytes. -/
def toBytesBE : Nat → Nat → List Nat
  | 0, _ => []
  | k + 1, x => toBytesBE k (x / 256) ++ [x % 256]

/-- Big-endian bytes to a number. -/
def bytesToWord (bs : List Nat) : Nat := bs.foldl (fun acc b => acc * 256 + b) 0

/-- Chunking worker, structurally recursive on a fuel bound so it reduces in
the kernel; `fuel ≥ l.length` makes the fuel irrelevant. -/
def chunksOfGo (n : Nat) : Nat → List α → List (List α)
  | 0, _ => []
  | _, [] => []
  | fuel + 1, x :: xs => (x :: xs).take (n + 1) :: chunksOfGo n fuel ((x :: xs).drop (n + 1))

/-- Split a list into chunks of `n + 1` elements (the last may be shorter).
The successor in the chunk size keeps the recursion well defined. -/
def chunksOf (n : Nat) (l : List α) : List (List α) := chunksOfGo n l.length l

/-- The SHA-256 initial hash value (FIPS 180-4 5.3.3), in decimal. -/
def sha256InitH : List Nat :=
  [1779033703, 3144134277, 1013904242, 2773480762,
   1359893119, 2600822924, 528734635, 1541459225]

/-- The 64 SHA-256 round constants (FIPS 180-4 4.2.2), in decimal. -/
def sha256K : List Nat :=
  [1116352408, 1899447441, 3049323471, 3921009573, 961987163,
   1508970993, 2453635748, 2870763221, 3624381080, 310598401,
   607225278, 1426881987, 1925078388, 2162078206, 2614888103,
   3248222580, 3835390401, 4022224774, 264347078, 604807628,
   770255983, 1249150122, 1555081692, 1996064986, 2554220882,
   2821834349, 2952996808, 3210313671, 3336571891, 3584528711,
   113926993, 338241895, 666307205, 773529912, 1294757372,
   1396182291, 1695183700, 1986661051, 2177026350, 2456956037,
   2730485921, 2820302411, 3259730800, 3345764771, 3516065817,
   3600352804, 4094571909, 275423344, 430227734, 506948616,
   659060556, 883997877, 958139571, 1322822218, 1537002063,
   1747873779, 1955562222, 2024104815, 2227730452, 2361852424,
   2428436474, 2756734187, 3204031479, 3329325298]

/-- SHA-256 padding: append `0x80`, zeros to 56 mod 64, then the bit length
as 8 big-endian bytes. -/
def padMessage (msg : List Nat) : List Nat :=
  let len := msg.length
  let z := (64 - (len + 9) % 64) % 64
  msg ++ [0x80] ++ List.replicate z 0 ++ toBytesBE 8 (8 * len)

/-- Extend a 16-word message schedule by `k` words (FIPS 180-4 §6.2.2 step 1). -/
def buildSchedule : List Nat → Nat → List Nat
  | w, 0 => w
  | w, k + 1 =>
    let n := w.length
    let nw := add32 (add32 (smallSigma1 (w.getD (n - 2) 0)) (w.getD (n - 7) 0))
                    (add32 (smallSigma0 (w.getD (n - 15) 0)) (w.getD (n - 16) 0))
    buildSchedule (w ++ [nw]) k

/-- One SHA-256 round on working variables `[a,b,c,d,e,f,g,h]` with round
constant and schedule word `kw`. -/
def compressRound (st : List Nat) (kw : Nat × Nat) : List Nat :=
  match st with
  | [a, b, c, d, e, f, g, h] =>
    let t1 := add32 h (add32 (bigSigma1 e) (add32 (ch e f g) (add32 kw.1 kw.2)))
    let t2 := add32 (bigSigma0 a) (maj a b c)
    [add32 t1 t2, a, b, c, add32 d t1, e, f, g]
  | other => other

/-- Process one padded 64-byte block (FIPS 180-4 §6.2.2). -/
def processBlock (h : List Nat) (block : List Nat) : List Nat :=
  let w := buildSchedule ((chunksOf 3 block).map bytesToWord) 48
  let st := (sha256K.zip w).foldl compressRound h
  (h.zip st).map (fun p => add32 p.1 p.2)

/-- SHA-256 digest of a byte sequence, as 32 bytes. -/
def sha256 (msg : List Nat) : List Nat :=
  let hs := (chunksOf 63 (padMessage msg)).foldl processBlock sha256InitH
  hs.foldr (fun w acc => toBytesBE 4 w ++ acc) []

/-- A nibble as a lowercase hex character. -/
def hexDigitChar (n : Nat) : Char :=
  if n < 10 then Char.ofNat (48 + n) else Char.ofNat (87 + n)

/-- Bytes as a lowercase hex string, the format of `hexdigest()`. -/
def bytesToHex (bs : List Nat) : String :=
  String.mk (bs.foldr (fun b acc => hexDigitChar (b / 16) :: hexDigitChar (b % 16) :: acc) [])

/-- Python `hashlib.sha256(msg).hexdigest()`: the digest as 64 lowercase hex chars. -/
def sha256hex (msg : List Nat) : String := bytesToHex (sha256 msg)

/-- The ASCII bytes of a string (all inputs used here are ASCII, where
Python's UTF-8 encoding agrees with the code points). -/
def strBytes (s : String) : List Nat := s.data.map Char.toNat

example : sha256hex [] =
    "e3b0c44298fc1c149afbf4c8996fb92427ae41e4649b934ca495991b7852b855" := by decide

example : sha256hex (strBytes "hello world") =
    "b94d27b9934d3e08a52e52d7da7dabfac484efe37a5380ee9088f7ace2efcde9" := by decide

/-! ## The streaming fingerprinter (`calculate_file_hash`)

`hashlib`'s incremental hash object is modelled by the bytes fed to it so
far: `update` appends, `hexdigest` hashes the accumulation — exactly the
documented semantics of the incremental API. -/

/-- An in-progress `hashlib.sha256()` object: the bytes fed so far. -/
structure HashObj where
  acc : List Nat
  deriving DecidableEq

/-- Method `obj.update(b)`: feed more bytes. -/
def HashObj.update (h : HashObj) (b : List Nat) : HashObj := ⟨h.acc ++ b⟩

/-- Method `obj.hexdigest()`: SHA-256 of everything fed so far, as hex. -/
def HashObj.hexdigest (h : HashObj) : String := sha256hex h.acc

/-- Function `calculate_file_hash` of `test-aws-upload.py`: stream the file through
SHA-256 in 4096-byte reads (`iter(lambda: f.read(4096), b"")` delivers the
file's bytes in successive chunks of 4096, i.e. `chunksOf 4095`). -/
def calculate_file_hash (fileBytes : List Nat) : String :=
  ((chunksOf 4095 fileBytes).foldl HashObj.update ⟨[]⟩).hexdigest

theorem chunksOfGo_join (n : Nat) :
    ∀ (fuel : Nat) (l : List α), l.length ≤ fuel → (chunksOfGo n fuel l).flatten = l := by
  intro fuel
  induction fuel with
  | zero =>
    intro l h
    have hl : l = [] := List.eq_nil_of_length_eq_zero (Nat.le_zero.mp h)
    subst hl; rfl
  | succ fuel ih =>
    intro l h
    cases l with
    | nil => rfl
    | cons x xs =>
      simp only [chunksOfGo, List.flatten_cons]
      rw [ih]
      · exact List.take_append_drop _ _
      · simp only [List.length_drop, List.length_cons] at *
        omega

theorem chunksOf_join (n : Nat) (l : List α) : (chunksOf n l).flatten = l :=
  chunksOfGo_join n l.length l (Nat.le_refl _)

theorem foldl_update_acc (L : List (List Nat)) :
    ∀ h : HashObj, (L.foldl HashObj.update h).acc = h.acc ++ L.flatten := by
  induction L with
  | nil => intro h; simp
  | cons c L ih =>
    intro h
    simp only [List.foldl_cons, ih, HashObj.update, List.flatten_cons, List.append_assoc]

/-- The streamed hash agrees with hashing the whole byte sequence at once. -/
theorem calculate_file_hash_eq_sha256hex (fileBytes : List Nat) :
    calculate_file_hash fileBytes = sha256hex fileBytes := by
  unfold calculate_file_hash HashObj.hexdigest
  rw [foldl_update_acc]
  simp only [List.nil_append]
  rw [chunksOf_join]

/-! ## `datetime.utcnow().isoformat()`

The wall clock is an input: each pipeline run receives the `DateTime` that
`datetime.utcnow()` returns during that run.  `isoformat` renders it the
way Python's `datetime.isoformat()` does: `YYYY-MM-DDTHH:MM:SS`, with
`.ffffff` appended exactly when the microsecond field is nonzero. -/

/-- The fields `datetime.utcnow()` yields. -/
structure DateTime where
  year : Nat
  month : Nat
  day : Nat
  hour : Nat
  minute : Nat
  second : Nat
  microsecond : Nat
  deriving DecidableEq

/-- The field ranges `datetime` guarantees. -/
def DateTime.Valid (d : DateTime) : Prop :=
  d.year < 10000 ∧ 1 ≤ d.month ∧ d.month ≤ 12 ∧ 1 ≤ d.day ∧ d.day ≤ 31 ∧
  d.hour < 24 ∧ d.minute < 60 ∧ d.second < 60 ∧ d.microsecond < 1000000

instance (d : DateTime) : Decidable d.Valid := by
  unfold DateTime.Valid; infer_instance

/-- A decimal digit as a character. -/
def digitChar (n : Nat) : Char := Char.ofNat (48 + n % 10)

/-- A number as exactly `k` decimal digit characters (zero padded). -/
def natDigitsFixed : Nat → Nat → List Char
  | 0, _ => []
  | k + 1, n => natDigitsFixed k (n / 10) ++ [digitChar n]

/-- Python `datetime.isoformat()` on a UTC (naive) datetime. -/
def isoformat (d : DateTime) : String :=
  String.mk
    (natDigitsFixed 4 d.year ++ ('-' ::
      (natDigitsFixed 2 d.month ++ ('-' ::
        (natDigitsFixed 2 d.day ++ ('T' ::
          (natDigitsFixed 2 d.hour ++ (':' ::
            (natDigitsFixed 2 d.minute ++ (':' ::
              (natDigitsFixed 2 d.second ++
                (if d.microsecond = 0 then [] else '.' :: natDigitsFixed 6 d.microsecond))))))))))))

/-- Consume exactly `k` decimal digits from the front, returning the rest. -/
def splitDigits : Nat → List Char → Option (List Char)
  | 0, l => some l
  | k + 1, c :: l => if c.isDigit then splitDigits k l else none
  | _ + 1, [] => none

/-- Consume one expected literal character. -/
def expectChar (c : Char) : List Char → Option (List Char)
  | d :: l => if d = c then some l else none
  | [] => none

/-- Recogniser for the ISO-8601 datetime shape Python emits for UTC naive
datetimes: `YYYY-MM-DDTHH:MM:SS` optionally followed by `.ffffff`. -/
def isIso8601 (s : String) : Bool :=
  match (((((((((((splitDigits 4 s.data).bind (expectChar '-')).bind
      (splitDigits 2)).bind (expectChar '-')).bind (splitDigits 2)).bind
      (expectChar 'T')).bind (splitDigits 2)).bind (expectChar ':')).bind
      (splitDigits 2)).bind (expectChar ':')).bind (splitDigits 2)) with
  | none => false
  | some [] => true
  | some ('.' :: rest) =>
    match splitDigits 6 rest with
    | some [] => true
    | _ => false
  | some _ => false

theorem digitChar_isDigit (n : Nat) : (digitChar n).isDigit = true := by
  have h : ∀ r < 10, (Char.ofNat (48 + r)).isDigit = true := by decide
  exact h (n % 10) (Nat.mod_lt n (by omega))

theorem natDigitsFixed_all_isDigit (k n : Nat) :
    ∀ c ∈ natDigitsFixed k n, c.isDigit = true := by
  induction k generalizing n with
  | zero => intro c hc; simp [natDigitsFixed] at hc
  | succ k ih =>
    intro c hc
    simp only [natDigitsFixed, List.mem_append, List.mem_singleton] at hc
    rcases hc with hc | hc
    · exact ih _ c hc
    · subst hc; exact digitChar_isDigit n

theorem natDigitsFixed_length (k n : Nat) : (natDigitsFixed k n).length = k := by
  induction k generalizing n with
  | zero => rfl
  | succ k ih => simp [natDigitsFixed, ih]

theorem splitDigits_append (l rest : List Char) (hd : ∀ c ∈ l, c.isDigit = true) :
    splitDigits l.length (l ++ rest) = some rest := by
  induction l with
  | nil => rfl
  | cons c l ih =>
    simp only [List.length_cons, List.cons_append, splitDigits,
      hd c (List.mem_cons_self c l), if_pos]
    exact ih fun x hx => hd x (List.mem_cons_of_mem c hx)

theorem splitDigits_fixed (k n : Nat) (rest : List Char) :
    splitDigits k (natDigitsFixed k n ++ rest) = some rest := by
  have := splitDigits_append (natDigitsFixed k n) rest (natDigitsFixed_all_isDigit k n)
  rwa [natDigitsFixed_length] at this

theorem bind_expectChar (c : Char) (l : List Char) :
    (some (c :: l)).bind (expectChar c) = some l := by
  simp [expectChar]

theorem bind_splitDigits_fixed (k n : Nat) (rest : List Char) :
    (some (natDigitsFixed k n ++ rest)).bind (splitDigits k) = some rest := by
  simp [splitDigits_fixed]

/-- The `isoformat` rendering is always in the ISO-8601 shape. -/
theorem isIso8601_isoformat (d : DateTime) : isIso8601 (isoformat d) = true := by
  unfold isIso8601 isoformat
  simp only [String.data]
  rw [splitDigits_fixed 4 d.year, bind_expectChar, bind_splitDigits_fixed 2 d.month,
    bind_expectChar, bind_splitDigits_fixed 2 d.day, bind_expectChar,
    bind_splitDigits_fixed 2 d.hour, bind_expectChar, bind_splitDigits_fixed 2 d.minute,
    bind_expectChar, bind_splitDigits_fixed 2 d.second]
  by_cases hm : d.microsecond = 0
  · rw [if_pos hm]
  · rw [if_neg hm]
    have h6 : splitDigits 6 (natDigitsFixed 6 d.microsecond) = some [] := by
      have := splitDigits_fixed 6 d.microsecond []
      rwa [List.append_nil] at this
    simp [h6]

/-! ## The ingestion pipeline (`test-aws-upload.py`)

The S3 bucket and the DynamoDB table are explicit state: association
lists with Python-dict upsert semantics (an existing key is overwritten in
place, a new key is appended).  Whether a given cloud call succeeds is an
input of the run (`CloudEnv`), standing for the behaviour of the network
on that call; a `False` flag is the call raising, which the source's
`try`/`except` blocks print and re-raise up to `main`. -/

/-- Upsert into an association list, Python-dict style. -/
def pyInsert (m : List (String × α)) (k : String) (v : α) : List (String × α) :=
  if m.any (fun p => p.1 = k) then
    m.map (fun p => if p.1 = k then (k, v) else p)
  else
    m ++ [(k, v)]

/-- Lookup in an association list. -/
def pyLookup (m : List (String × α)) (k : String) : Option α :=
  (m.find? (fun p => p.1 = k)).map Prod.snd

/-- Constant `S3_PREFIX` of the script (named `s3PrefixStr` here). -/
def s3PrefixStr : String := "images/"

/-- Constant `DYNAMODB_TABLE` of the script. -/
def DYNAMODB_TABLE : String := "SignalMetadata"

/-- The item `store_in_dynamodb` writes. -/
structure Record where
  file_hash : String
  s3_key : String
  file_name : String
  upload_timestamp : String
  status : String
  deriving DecidableEq

/-- The two cloud collaborators' contents. -/
structure CloudState where
  store : List (String × List Nat)
  index : List (String × Record)
  deriving DecidableEq

/-- Whether each external call of one run succeeds: reading the source
file, the S3 `put_object`, and the DynamoDB `put_item`. -/
structure CloudEnv where
  readOk : Bool
  s3Ok : Bool
  ddbOk : Bool
  deriving DecidableEq

/-- The run where every call succeeds. -/
def CloudEnv.allOk : CloudEnv := ⟨true, true, true⟩

/-- The error `main` catches and reports, by failing step. -/
inductive PipelineError where
  | sourceReadError
  | storageError
  | indexError
  deriving DecidableEq

/-- One collaborator invocation, for counting calls. -/
inductive Event where
  | hashRead
  | uploadRead
  | s3Put (key : String)
  | ddbPut (r : Record)
  deriving DecidableEq

/-- Function `upload_to_s3`: derive the key prefixing the hash and name,
re-read the file and `put_object`; on failure print and re-raise. -/
def upload_to_s3 (env : CloudEnv) (st : List (String × List Nat))
    (fileBytes : List Nat) (file_name file_hash : String) :
    Except PipelineError (String × List (String × List Nat)) :=
  let s3_key := s3PrefixStr ++ file_hash ++ "__" ++ file_name
  if env.readOk then
    if env.s3Ok then .ok (s3_key, pyInsert st s3_key fileBytes)
    else .error .storageError
  else .error .sourceReadError

/-- Function `store_in_dynamodb`: `put_item` of the metadata record, keyed by
`file_hash`, with `status = "uploaded"` and the current UTC timestamp;
on failure print and re-raise. -/
def store_in_dynamodb (env : CloudEnv) (index : List (String × Record))
    (s3_key file_hash file_name : String) (now : DateTime) :
    Except PipelineError (Record × List (String × Record)) :=
  let r : Record :=
    ⟨file_hash, s3_key, file_name, isoformat now, "uploaded"⟩
  if env.ddbOk then .ok (r, pyInsert index file_hash r)
  else .error .indexError

/-- The outcome `main` reports: completion, or `"Process failed"` with the
caught error. -/
inductive Outcome where
  | done (r : Record)
  | failed (e : PipelineError)
  deriving DecidableEq

/-- The ingestion steps of `main` on given input bytes and logical file
name: hash, upload, index, with every raise caught by `main`'s
`try`/`except`.  Returns the outcome, the final cloud state, and the
collaborator calls made, in order. -/
def runPipeline (env : CloudEnv) (now : DateTime) (fileBytes : List Nat)
    (fileName : String) (st : CloudState) : Outcome × CloudState × List Event :=
  if env.readOk then
    let file_hash := calculate_file_hash fileBytes
    match upload_to_s3 env st.store fileBytes fileName file_hash with
    | .error e => (.failed e, st, [.hashRead, .uploadRead])
    | .ok (s3_key, store') =>
      match store_in_dynamodb env st.index s3_key file_hash fileName now with
      | .error e =>
        (.failed e, ⟨store', st.index⟩, [.hashRead, .uploadRead, .s3Put s3_key])
      | .ok (r, index') =>
        (.done r, ⟨store', index'⟩,
         [.hashRead, .uploadRead, .s3Put s3_key, .ddbPut r])
  else (.failed .sourceReadError, st, [.hashRead])

/-! ## The table provisioner (`create-dynamodb-table.py`)

`create_table` either succeeds or raises a `ClientError` carrying an error
code; the script treats `ResourceInUseException` as success, returns
`False` on any other `ClientError`, and lets anything else (in particular
the waiter's `WaiterError`) propagate.  The boto3 `table_exists` waiter is
modelled by its documented behaviour: poll `DescribeTable` up to 25
attempts (20 s apart), raising `WaiterError` when the bound is exhausted. -/

/-- The backend a provisioning run talks to: what `create_table` does, and
whether the table is reported usable at the `i`-th waiter poll. -/
structure DdbBackend where
  createResult : Option String
  activeAt : Nat → Bool

/-- An exception the script does not catch. -/
inductive UncaughtError where
  | waiterError
  deriving DecidableEq

/-- The boto3 `table_exists` waiter: poll until the table is active, up to
`maxAttempts` polls, raising `WaiterError` when they are exhausted. -/
def waiterWait (activeAt : Nat → Bool) : Nat → Nat → Except UncaughtError Unit
  | _, 0 => .error .waiterError
  | attempt, fuel + 1 =>
    if activeAt attempt then .ok () else waiterWait activeAt (attempt + 1) fuel

/-- The waiter's default attempt bound for `table_exists`. -/
def waiterMaxAttempts : Nat := 25

/-- Function `create_file_metadata_table`: attempt creation; a
`ResourceInUseException` is success, any other `ClientError` returns
`False`; after a fresh creation, wait for the table via the waiter, whose
`WaiterError` propagates uncaught. -/
def create_file_metadata_table (b : DdbBackend) : Except UncaughtError Bool :=
  match b.createResult with
  | some code => if code = "ResourceInUseException" then .ok true else .ok false
  | none =>
    match waiterWait b.activeAt 0 waiterMaxAttempts with
    | .ok () => .ok true
    | .error e => .error e

/-! ## The config flattener (`aws-config-parser.py`) -/

/-- A JSON configuration value. -/
inductive JValue where
  | str : String → JValue
  | int : Int → JValue
  | bool : Bool → JValue
  | dict : List (String × JValue) → JValue

/-- Python `str()` as used by the f-string `f"{name}='{v}'"` on the leaf
values the flattener leaves behind. -/
def pyStr : JValue → String
  | .str s => s
  | .int n => toString n
  | .bool b => if b then "True" else "False"
  | .dict _ => "<dict>"

/-- Python `dict.update`: upsert every pair of the second dict into the first. -/
def pyUpdate (m adds : List (String × α)) : List (String × α) :=
  adds.foldl (fun acc p => pyInsert acc p.1 p.2) m

/-- Function `flatten_config`: walk the entries in order, joining nested keys with
`_`; dict values recurse and merge via `dict.update`, leaves assign.  The
`items` accumulator is the `items` dict of the loop. -/
def flatten_config : List (String × JValue) → String → List (String × JValue) →
    List (String × JValue)
  | [], _, items => items
  | (k, v) :: rest, parentKey, items =>
    let newKey := if parentKey = "" then k else parentKey ++ "_" ++ k
    match v with
    | .dict d => flatten_config rest parentKey (pyUpdate items (flatten_config d newKey []))
    | leaf => flatten_config rest parentKey (pyInsert items newKey leaf)

/-- Python `str.upper()` (the keys here are ASCII, where it uppercases
per character). -/
def pyUpper (s : String) : String := String.mk (s.data.map Char.toUpper)

/-- Function `format_shell`: each entry rendered with the (prefixed) key
uppercased. -/
def format_shell (vars : List (String × JValue)) (pre : String) : List String :=
  vars.map (fun p => pyUpper (pre ++ p.1) ++ "='" ++ pyStr p.2 ++ "'")

/-! ## Helper lemmas -/

theorem pyLookup_pyInsert (m : List (String × α)) (k : String) (v : α) :
    pyLookup (pyInsert m k v) k = some v := by
  induction m with
  | nil => simp [pyInsert, pyLookup]
  | cons p m ih =>
    by_cases hp : p.1 = k
    · simp [pyInsert, pyLookup, hp, List.any_cons]
    · unfold pyInsert at ih ⊢
      simp only [List.any_cons, hp, decide_False, Bool.false_or]
      by_cases ha : m.any (fun q => q.1 = k)
      · rw [if_pos ha] at ih
        rw [if_pos (by exact_mod_cast ha)]
        simp only [List.map_cons, if_neg hp]
        unfold pyLookup at ih ⊢
        simp only [List.find?_cons, hp, decide_False] at *
        exact ih
      · rw [if_neg ha] at ih
        rw [if_neg (by exact_mod_cast ha)]
        simp only [List.cons_append]
        unfold pyLookup at ih ⊢
        simp only [List.find?_cons, hp, decide_False] at *
        exact ih

/-! ## The claims -/

/-- C5: for every byte sequence `B`, the fingerprint computed by streaming
`B` through the hash in bounded-size (4096-byte) chunks equals the SHA-256
digest of `B` taken as a whole, and computing it twice on the same `B`
yields identical output. -/
theorem C5_streaming_fingerprint (B : List Nat) :
    calculate_file_hash B = sha256hex B ∧
    calculate_file_hash B = calculate_file_hash B :=
  ⟨calculate_file_hash_eq_sha256hex B, rfl⟩

/-- C8: flattening the nested config `{"s3": {"bucket": "x"}}` and
formatting it for shell output produces exactly `S3_BUCKET='x'`. -/
theorem C8_flatten_format_s3_bucket :
    format_shell (flatten_config [("s3", JValue.dict [("bucket", JValue.str "x")])] "" []) "" =
      ["S3_BUCKET='x'"] := by
  simp only [flatten_config, pyUpdate, pyInsert]
  simp only [List.foldl_cons, List.foldl_nil, List.any_nil, List.any_cons]
  norm_num
  decide

/-- C9: `flatten_config` is not injective — `{"a": {"b": 1}}` and
`{"a_b": 1}` are distinct configs that flatten to the same dictionary —
and on the single config `{"a": {"b": 1}, "a_b": 2}`, whose nested path
and literal key collide, the value `1` is silently lost: the output is
exactly `{"a_b": 2}`. -/
theorem C9_flatten_not_injective :
    flatten_config [("a", JValue.dict [("b", JValue.int 1)])] "" [] =
      flatten_config [("a_b", JValue.int 1)] "" [] ∧
    [("a", JValue.dict [("b", JValue.int 1)])] ≠ [("a_b", JValue.int 1)] ∧
    flatten_config [("a", JValue.dict [("b", JValue.int 1)]), ("a_b", JValue.int 2)] "" [] =
      [("a_b", JValue.int 2)] := by
  refine ⟨by simp [flatten_config, pyUpdate, pyInsert], ?_, by simp [flatten_config, pyUpdate, pyInsert]⟩
  intro h
  have h1 := List.head_eq_of_cons_eq h
  have h2 : "a" = "a_b" := congrArg Prod.fst h1
  simp at h2

/-- C10: every metadata record the pipeline writes to the index has status
`"uploaded"`; no run writes a record whose status is `"pending"` or
`"failed"`. -/
theorem C10_status_always_uploaded (env : CloudEnv) (t : DateTime) (B : List Nat)
    (N : String) (st : CloudState) :
    ((runPipeline env t B N st).2.2.all
      (fun e => match e with
        | Event.ddbPut r => r.status == "uploaded"
        | _ => true)) = true := by
  rcases env with ⟨r, s, d⟩
  cases r <;> cases s <;> cases d <;>
    simp [runPipeline, upload_to_s3, store_in_dynamodb]

/-- C4: every successful ingestion of bytes `B` with logical name `N`
stores under key `images/<sha256-hex(B)>__<N>` and writes the record
`{file_hash = fingerprint(B), s3_key = key, file_name = N,
status = "uploaded", upload_timestamp = ISO-8601 UTC string}`. -/
theorem C4_storage_key_and_record (B : List Nat) (N : String) (t : DateTime)
    (st : CloudState) :
    ∃ r : Record,
      (runPipeline CloudEnv.allOk t B N st).1 = Outcome.done r ∧
      r.s3_key = s3PrefixStr ++ sha256hex B ++ "__" ++ N ∧
      r.file_hash = sha256hex B ∧
      r.file_name = N ∧
      r.status = "uploaded" ∧
      r.upload_timestamp = isoformat t ∧
      isIso8601 r.upload_timestamp = true := by
  refine ⟨⟨calculate_file_hash B, s3PrefixStr ++ calculate_file_hash B ++ "__" ++ N,
      N, isoformat t, "uploaded"⟩, ?_, ?_, ?_, rfl, rfl, rfl, isIso8601_isoformat t⟩
  · simp [runPipeline, upload_to_s3, store_in_dynamodb, CloudEnv.allOk]
  · simp [calculate_file_hash_eq_sha256hex]
  · simp [calculate_file_hash_eq_sha256hex]

/-- C1 counterexample, first run: ingest the test image bytes at one
clock reading. -/
def cexRun1 : Outcome × CloudState × List Event :=
  runPipeline CloudEnv.allOk ⟨2024, 1, 1, 0, 0, 0, 0⟩
    (strBytes "Test image content") "test_image.heic" ⟨[], []⟩

/-- C1 counterexample, second run: identical bytes and name, one second
later, starting from the first run's end state. -/
def cexRun2 : Outcome × CloudState × List Event :=
  runPipeline CloudEnv.allOk ⟨2024, 1, 1, 0, 0, 1, 0⟩
    (strBytes "Test image content") "test_image.heic" cexRun1.2.1

/-- The record of a completed run, if any. -/
def outcomeRecord : Outcome → Option Record
  | Outcome.done r => some r
  | Outcome.failed _ => none

set_option maxHeartbeats 4000000 in
/-- C1 fails as stated: running the pipeline twice on identical bytes and
logical name, both runs succeed and agree on the storage key, but the two
fingerprint-keyed records differ (their `upload_timestamp` fields record
different clock readings), so the second run does not yield the same
record. -/
theorem C1_counterexample :
    (outcomeRecord cexRun1.1).isSome = true ∧
    (outcomeRecord cexRun2.1).isSome = true ∧
    (outcomeRecord cexRun1.1).map Record.s3_key =
      (outcomeRecord cexRun2.1).map Record.s3_key ∧
    outcomeRecord cexRun1.1 ≠ outcomeRecord cexRun2.1 := by
  refine ⟨by decide, by decide, by decide, by decide⟩

/-- C1 amended: running the pipeline twice on identical bytes and logical
name yields the same storage key on both runs, the second run does not
error, and the second record agrees with the first on every field except
possibly `upload_timestamp` (where each run records its own clock); the
second record is stored in the index under the fingerprint. -/
theorem C1_idempotent_up_to_timestamp (B : List Nat) (N : String)
    (t1 t2 : DateTime) (st : CloudState) :
    ∃ r1 r2 : Record,
      (runPipeline CloudEnv.allOk t1 B N st).1 = Outcome.done r1 ∧
      (runPipeline CloudEnv.allOk t2 B N
        (runPipeline CloudEnv.allOk t1 B N st).2.1).1 = Outcome.done r2 ∧
      r2.s3_key = r1.s3_key ∧
      r2 = { r1 with upload_timestamp := isoformat t2 } ∧
      pyLookup ((runPipeline CloudEnv.allOk t2 B N
        (runPipeline CloudEnv.allOk t1 B N st).2.1).2.1).index r1.file_hash = some r2 := by
  refine ⟨⟨calculate_file_hash B, s3PrefixStr ++ calculate_file_hash B ++ "__" ++ N,
      N, isoformat t1, "uploaded"⟩,
    ⟨calculate_file_hash B, s3PrefixStr ++ calculate_file_hash B ++ "__" ++ N,
      N, isoformat t2, "uploaded"⟩, ?_, ?_, rfl, rfl, ?_⟩
  · simp [runPipeline, upload_to_s3, store_in_dynamodb, CloudEnv.allOk]
  · simp [runPipeline, upload_to_s3, store_in_dynamodb, CloudEnv.allOk]
  · simp [runPipeline, upload_to_s3, store_in_dynamodb, CloudEnv.allOk, pyLookup_pyInsert]

/-- C3: a run whose object-store put fails ends `FAILED` with a storage
error, leaves the whole cloud state (in particular the metadata index)
unchanged, and never reaches the index-write call. -/
theorem C3_failed_upload_leaves_index (B : List Nat) (N : String) (t : DateTime)
    (st : CloudState) (d : Bool) :
    (runPipeline ⟨true, false, d⟩ t B N st).1 = Outcome.failed PipelineError.storageError ∧
    (runPipeline ⟨true, false, d⟩ t B N st).2.1 = st ∧
    (runPipeline ⟨true, false, d⟩ t B N st).2.2 = [Event.hashRead, Event.uploadRead] := by
  refine ⟨?_, ?_, ?_⟩ <;> simp [runPipeline, upload_to_s3]

/-- C6: each run makes at most one call to each collaborator (no silent
retries), and the outcome surfaces the first failing step to `main` as the
error of that step — source read, storage put, or index put. -/
theorem C6_failures_surface_no_retries (env : CloudEnv) (t : DateTime)
    (B : List Nat) (N : String) (st : CloudState) :
    ((runPipeline env t B N st).2.2.countP
      (fun e => match e with | Event.s3Put _ => true | _ => false)) ≤ 1 ∧
    ((runPipeline env t B N st).2.2.countP
      (fun e => match e with | Event.ddbPut _ => true | _ => false)) ≤ 1 ∧
    ((runPipeline env t B N st).2.2.countP
      (fun e => match e with | Event.hashRead => true | _ => false)) ≤ 1 ∧
    ((runPipeline env t B N st).2.2.countP
      (fun e => match e with | Event.uploadRead => true | _ => false)) ≤ 1 ∧
    (runPipeline env t B N st).1 =
      (if env.readOk = false then Outcome.failed PipelineError.sourceReadError
       else if env.s3Ok = false then Outcome.failed PipelineError.storageError
       else if env.ddbOk = false then Outcome.failed PipelineError.indexError
       else Outcome.done
         ⟨calculate_file_hash B,
          s3PrefixStr ++ calculate_file_hash B ++ "__" ++ N, N,
          isoformat t, "uploaded"⟩) := by
  rcases env with ⟨r, s, d⟩
  cases r <;> cases s <;> cases d <;>
    simp [runPipeline, upload_to_s3, store_in_dynamodb, List.countP_cons, List.countP_nil]

theorem waiterWait_error (ready : Nat → Bool) :
    ∀ (fuel a : Nat), (∀ i, a ≤ i → i < a + fuel → ready i = false) →
      waiterWait ready a fuel = Except.error UncaughtError.waiterError := by
  intro fuel
  induction fuel with
  | zero => intro a _; rfl
  | succ fuel ih =>
    intro a h
    unfold waiterWait
    rw [h a (Nat.le_refl a) (by omega)]
    simp only [Bool.false_eq_true, if_false]
    exact ih (a + 1) (fun i h1 h2 => h i (by omega) (by omega))

/-- C2: provisioning is an idempotent bootstrap — creation success returns
`True` (ready), a conflict-on-create (`ResourceInUseException`, the
backend's "table exists") also returns `True` instead of surfacing the
exception, and any other creation failure is reported to the caller as
`False` (the script's error return), never as success. -/
theorem C2_ensure_table_idempotent (code : String) (ready : Nat → Bool)
    (hcode : code ≠ "ResourceInUseException") (h0 : ready 0 = true) :
    create_file_metadata_table ⟨none, ready⟩ = Except.ok true ∧
    create_file_metadata_table ⟨some "ResourceInUseException", ready⟩ = Except.ok true ∧
    create_file_metadata_table ⟨some code, ready⟩ = Except.ok false := by
  refine ⟨?_, by simp [create_file_metadata_table], ?_⟩
  · unfold create_file_metadata_table waiterMaxAttempts
    simp [waiterWait, h0]
  · simp [create_file_metadata_table, hcode]

/-- C2 witness: the three cases at a concrete backend. -/
theorem C2_witness :
    create_file_metadata_table ⟨none, fun _ => true⟩ = Except.ok true ∧
    create_file_metadata_table ⟨some "ResourceInUseException", fun _ => true⟩ =
      Except.ok true ∧
    create_file_metadata_table ⟨some "AccessDeniedException", fun _ => true⟩ =
      Except.ok false :=
  C2_ensure_table_idempotent "AccessDeniedException" (fun _ => true) (by decide) rfl

/-- C7 fails as stated: when the backend reports the table already exists,
the script returns ready immediately — even against a backend whose table
is never usable (every poll would report not-ready) — rather than blocking
until the table is confirmed usable or surfacing a timeout error. -/
theorem C7_counterexample :
    create_file_metadata_table ⟨some "ResourceInUseException", fun _ => false⟩ =
      Except.ok true ∧
    create_file_metadata_table ⟨some "ResourceInUseException", fun _ => false⟩ ≠
      Except.error UncaughtError.waiterError := by
  refine ⟨rfl, by simp [create_file_metadata_table]⟩

/-- C7 amended: only in the newly-created branch does the script block on
the table-exists waiter, which polls a bounded number of times
(25 attempts) and surfaces a `WaiterError` — not an unbounded block — if
the table never becomes ready within the bound; a table that is ready at
the first poll yields ready.  In the already-exists branch the script
returns ready immediately, without any confirmation poll. -/
theorem C7_bounded_wait (ready never : Nat → Bool)
    (h0 : ready 0 = true)
    (hn : ∀ i, i < waiterMaxAttempts → never i = false) :
    create_file_metadata_table ⟨none, ready⟩ = Except.ok true ∧
    create_file_metadata_table ⟨none, never⟩ =
      Except.error UncaughtError.waiterError ∧
    create_file_metadata_table ⟨some "ResourceInUseException", never⟩ =
      Except.ok true := by
  refine ⟨?_, ?_, by simp [create_file_metadata_table]⟩
  · unfold create_file_metadata_table waiterMaxAttempts
    simp [waiterWait, h0]
  · unfold create_file_metadata_table
    rw [waiterWait_error never waiterMaxAttempts 0
      (fun i _ h2 => hn i (by omega))]

/-- C7 witness: the bounded wait at concrete backends. -/
theorem C7_witness :
    create_file_metadata_table ⟨none, fun _ => true⟩ = Except.ok true ∧
    create_file_metadata_table ⟨none, fun _ => false⟩ =
      Except.error UncaughtError.waiterError ∧
    create_file_metadata_table ⟨some "ResourceInUseException", fun _ => false⟩ =
      Except.ok true :=
  C7_bounded_wait (fun _ => true) (fun _ => false) rfl (fun _ _ => rfl)

end SignalScripts
